import Mathlib

/-!
Shallow embedding of the sales validation-and-aggregation engine of
`analyze_sales.py` (with the ad-hoc block scripts `MonthlySalesAnalysis.py`,
`DataQC.py`, `BaseKPIs.py` as corroborating variants).

Conventions of the embedding:
* A pandas `DataFrame` of transaction lines is a `List Rec`; the column set of
  the frame is fixed by the record structure.  The Japanese CSV columns are
  rendered with their English equivalents (the same mapping the repository
  documentation uses): 伝票番号 = `document_id`, 出荷日 = `ship_date`,
  請求先顧客法人グループID/法人名 = `billing_group_id`/`billing_group_name`,
  出荷先顧客店舗ID/店舗名 = `store_id`/`store_name`, 所在都道府県 = `region`,
  顧客担当者ID/名 = `customer_rep_id`/`customer_rep_name`,
  自社担当者ID, 出荷時自社担当者名, 出荷時自社担当者テリトリコード =
  `company_rep_id`/`company_rep_name`/`company_rep_territory`,
  製品グループ名/製品サブカテゴリ名/製品名称 =
  `product_group`/`product_subcategory`/`product_name`, 単価 = `unit_price`,
  個数 = `quantity`, 合計出荷金額 = `total_amount`, 返品フラグ =
  `is_return_flag`, 無償出荷フラグ = `is_free_flag`.
* Monetary amounts, unit prices and quantities are modelled as exact
  rationals (`ℚ`), the usual idealisation of the float columns; the flags are
  the numeric `0/1` columns of the CSV, compared against `0`/`1` exactly as
  the source does.
* `ship_date` is a calendar date ordered lexicographically, which is the
  order `pd.Timestamp` comparison gives; the loader-derived `year_month`
  key `to_period("M")` is embedded as `year * 100 + month`, whose `Nat` order
  coincides with the lexicographic order of the `"YYYY-MM"` strings pandas
  sorts on.
* A ratio that pandas would materialise as `NaN` ("not available") is an
  `Option ℚ` that is `none`; `float` division by zero as performed by
  `pct_change` is modelled by `FVal`, which distinguishes `nan` from `±inf`.
* `groupby(keys).agg(...)` over observed key tuples followed by a left merge
  of a filtered secondary grouping and `fillna(0)` is embedded literally:
  the secondary grouping is an association list over the keys present in the
  filtered sub-frame, and the merged value is the lookup with default `0`
  (`mergedVal`).  Category sets are modelled as the observed value sets.
-/

namespace SalesAnalysis

/-- A calendar date (proxy for `pd.Timestamp` of the ship-date column). -/
structure Date where
  y : Nat
  m : Nat
  d : Nat
deriving DecidableEq, Repr

/-- Timestamp comparison (`pd.Timestamp`): lexicographic order on (year, month, day). -/
def dateLE (a b : Date) : Bool :=
  decide (a.y < b.y ∨ (a.y = b.y ∧ (a.m < b.m ∨ (a.m = b.m ∧ a.d ≤ b.d))))

/-- One transaction line (one row of the sales CSV), columns as in
`load_sales_csv`.  The loader-derived helper columns `weekday*` are not used
by any aggregation under study and are omitted. -/
structure Rec where
  document_id : String
  ship_date : Date
  billing_group_id : String
  billing_group_name : String
  store_id : String
  store_name : String
  region : String
  customer_rep_id : String
  customer_rep_name : String
  company_rep_id : String
  company_rep_name : String
  company_rep_territory : String
  product_group : String
  product_subcategory : String
  product_name : String
  unit_price : ℚ
  quantity : ℚ
  total_amount : ℚ
  is_return_flag : Nat
  is_free_flag : Nat
deriving DecidableEq, Repr

/-- The loader column `year_month = ship_date.dt.to_period("M")`, encoded so
that `Nat` order matches the lexicographic order of the `"YYYY-MM"` strings. -/
def ym (r : Rec) : Nat := r.ship_date.y * 100 + r.ship_date.m

/-- The date filter `filter_by_date`: keep rows with `ship_date >= start` (when given) and
then rows with `ship_date <= end` (when given); both boundaries inclusive. -/
def filter_by_date (df : List Rec) (start? end? : Option Date) : List Rec :=
  let df1 := match start? with
    | some s => df.filter (fun r => dateLE s r.ship_date)
    | none => df
  match end? with
  | some e => df1.filter (fun r => dateLE r.ship_date e)
  | none => df1

/-- Sum of `f` over a list of records. -/
def sumBy (df : List Rec) (f : Rec → ℚ) : ℚ := (df.map f).sum

/-- The scalar KPI set returned (as a dict) by `compute_core_kpis`.
`none` stands for the `np.nan` "not available" value. -/
structure CoreKpis where
  NetSales : ℚ
  PaidSales : ℚ
  Returns : ℚ
  ReturnRate : Option ℚ
  FreeCount : Nat
  FreeRate : Option ℚ
  Transactions : Nat
  AvgPricePaid : Option ℚ
deriving DecidableEq, Repr

/-- The KPI engine `compute_core_kpis` of `analyze_sales.py`.  Each guard mirrors the
source's `if denominator > 0 else np.nan`; division never raises because the
undefined case is returned as `none` instead of being computed. -/
def compute_core_kpis (df : List Rec) : CoreKpis :=
  let paid_sales := sumBy (df.filter (fun r => decide (r.total_amount > 0))) (·.total_amount)
  let net_sales := sumBy df (·.total_amount)
  let returns := sumBy (df.filter (fun r => decide (r.is_return_flag = 1))) (fun r => |r.total_amount|)
  let return_rate := if paid_sales > 0 then some (returns / paid_sales) else none
  let free_count := (df.filter (fun r => decide (r.is_free_flag = 1))).length
  let total_rows := df.length
  let free_rate := if total_rows > 0 then some ((free_count : ℚ) / (total_rows : ℚ)) else none
  let qty_paid := sumBy (df.filter (fun r => decide (r.total_amount > 0))) (·.quantity)
  let avg_price := if qty_paid > 0 then some (paid_sales / qty_paid) else none
  { NetSales := net_sales
    PaidSales := paid_sales
    Returns := returns
    ReturnRate := return_rate
    FreeCount := free_count
    FreeRate := free_rate
    Transactions := total_rows
    AvgPricePaid := avg_price }

/-! ## Quality rule engine (`run_quality_checks`) -/

/-- numpy round-half-to-even of a rational to an integer. -/
def roundHalfEven (x : ℚ) : ℤ :=
  let f := ⌊x⌋
  let r := x - (f : ℚ)
  if r < 1/2 then f
  else if r > 1/2 then f + 1
  else if f % 2 = 0 then f else f + 1

/-- Rounding `Series.round(2)`: round to two decimal places (numpy half-to-even). -/
def round2 (x : ℚ) : ℚ := ((roundHalfEven (x * 100) : ℚ)) / 100

/-- Rule 1 mask: `(is_free_flag == 1) & (total_amount.round(2) != 0)`. -/
def maskFree (r : Rec) : Bool :=
  decide (r.is_free_flag = 1 ∧ round2 r.total_amount ≠ 0)

/-- Rule 2 mask: `(is_return_flag == 1) & ((quantity >= 0) | (total_amount >= 0))`. -/
def maskRet (r : Rec) : Bool :=
  decide (r.is_return_flag = 1 ∧ (r.quantity ≥ 0 ∨ r.total_amount ≥ 0))

/-- "Normal paid" mask: `(is_free_flag == 0) & (is_return_flag == 0) & (total_amount > 0)`. -/
def maskPaid (r : Rec) : Bool :=
  decide (r.is_free_flag = 0 ∧ r.is_return_flag = 0 ∧ r.total_amount > 0)

/-- The rule-3 discrepancy `unit_price * quantity - total_amount`. -/
def diffOf (r : Rec) : ℚ := r.unit_price * r.quantity - r.total_amount

/-- Rule 3 mismatch test on a normal paid row: `diff.abs() > tolerance`. -/
def maskMismatch (tol : ℚ) (r : Rec) : Bool := decide (|diffOf r| > tol)

/-- A row of a working frame: the original record plus the columns the scripts
attach to copies (`issue`, `calc_diff`, `qty_bin` as a raw label).  In the
loaded input frame the extra columns are absent (`none`). -/
structure XRow where
  base : Rec
  issue : Option String := none
  calcDiff : Option ℚ := none
  qtyBin : Option String := none
deriving DecidableEq, Repr

/-- Wrap a loaded record as an input-frame row. -/
def mkRow (r : Rec) : XRow := { base := r }

/-- The quality engine `run_quality_checks df tolerance`: the concatenation (in source order:
FREE, RETURN, PRICE) of the three independently filtered and labelled copies.
A rule with no violating rows contributes nothing. -/
def run_quality_checks (df : List XRow) (tol : ℚ) : List XRow :=
  (df.filter (fun x => maskFree x.base)).map
      (fun x => { x with issue := some "FREE_NONZERO_AMOUNT" })
    ++ (df.filter (fun x => maskRet x.base)).map
      (fun x => { x with issue := some "RETURN_SIGN_MISMATCH" })
    ++ (df.filter (fun x => maskPaid x.base && maskMismatch tol x.base)).map
      (fun x => { x with calcDiff := some (diffOf x.base), issue := some "PRICE_QTY_MISMATCH" })

/-! ## Generic grouping with secondary filtered groupings merged back

`groupby(keys, observed=False).agg(...)` / left merge / `fillna(0.0)` pattern
shared by all aggregation pipelines. -/

/-- The observed group keys of a frame, in first-occurrence order (the row
set a key indexes is what matters for every claim, not the display order). -/
def groupKeys {K : Type} [DecidableEq K] (df : List Rec) (key : Rec → K) : List K :=
  (df.map key).dedup

/-- Per-group aggregate `("col", "sum")`: the sum of `f` over the rows of the
group of `k`. -/
def groupSum {K : Type} [DecidableEq K] (df : List Rec) (key : Rec → K) (k : K)
    (f : Rec → ℚ) : ℚ :=
  sumBy (df.filter (fun r => decide (key r = k))) f

/-- Per-group aggregate `("col", "count")`: the number of rows of the group. -/
def groupCount {K : Type} [DecidableEq K] (df : List Rec) (key : Rec → K) (k : K) : Nat :=
  (df.filter (fun r => decide (key r = k))).length

/-- The secondary grouping `df[pred].groupby(key)[col].sum()` as the
association list it is: one `(key, sum)` pair per key observed in the
filtered sub-frame. -/
def subPairs {K : Type} [DecidableEq K] (df : List Rec) (key : Rec → K)
    (pred : Rec → Bool) (f : Rec → ℚ) : List (K × ℚ) :=
  (groupKeys (df.filter pred) key).map (fun k => (k, groupSum (df.filter pred) key k f))

/-- The merge `base.merge(sub, on=key, how="left")` followed by `fillna(0.0)`: the value
of the secondary grouping at `k`, or `0` when `k` has no row in the filtered
sub-frame. -/
def mergedVal {K : Type} [DecidableEq K] (df : List Rec) (key : Rec → K)
    (pred : Rec → Bool) (f : Rec → ℚ) (k : K) : ℚ :=
  match (subPairs df key pred f).find? (fun q => decide (q.1 = k)) with
  | some q => q.2
  | none => 0

/-- Predicate for the paid secondary groupings: `合計出荷金額 > 0`. -/
def paidPred (r : Rec) : Bool := decide (r.total_amount > 0)

/-- Predicate for the returns secondary groupings: `返品フラグ == 1`. -/
def retPred (r : Rec) : Bool := decide (r.is_return_flag = 1)

/-- Absolute amount, summed by the returns groupings. -/
def absAmount (r : Rec) : ℚ := |r.total_amount|

/-! ## The six aggregation pipelines, as per-group value functions -/

/-- A possibly-`np.nan` float value: result of a pandas float division such as
`pct_change`.  `nan` is the "not available" value; `inf` is a genuine
infinity, *not* "not available" (`pd.isna(inf) = False`). -/
inductive FVal where
  | nan : FVal
  | inf (pos : Bool) : FVal
  | val (q : ℚ) : FVal
deriving DecidableEq, Repr

/-- Float division `a / b` of exact reals as numpy performs it: finite
quotient when `b ≠ 0`, signed infinity when `b = 0 ∧ a ≠ 0`, `nan` for `0/0`. -/
def fdiv (a b : ℚ) : FVal :=
  if b ≠ 0 then .val (a / b)
  else if a > 0 then .inf true
  else if a < 0 then .inf false
  else .nan

/-- One `Series.pct_change` step at one row: `(curr - prev) / prev` by float
division; `nan` when there is no previous row in range. -/
def pctChange (prev? : Option ℚ) (curr : ℚ) : FVal :=
  match prev? with
  | none => .nan
  | some p => fdiv (curr - p) p

/-- Temporal pipeline: the month keys ascending (pandas groups by the
`year_month` string and `sort_values` ascending). -/
def monKeys (df : List Rec) : List Nat :=
  (groupKeys df ym).insertionSort (· ≤ ·)

/-- Monthly `NetSales` of a month key. -/
def monNetSales (df : List Rec) (k : Nat) : ℚ := groupSum df ym k (·.total_amount)

/-- Monthly `Quantity`. -/
def monQuantity (df : List Rec) (k : Nat) : ℚ := groupSum df ym k (·.quantity)

/-- Monthly `Transactions` (count of 伝票番号). -/
def monTransactions (df : List Rec) (k : Nat) : Nat := groupCount df ym k

/-- Monthly `FreeCount` (the *sum* of the 0/1 free flag, as the source aggregates). -/
def monFreeCount (df : List Rec) (k : Nat) : ℚ := groupSum df ym k (fun r => (r.is_free_flag : ℚ))

/-- Monthly `PaidSales`: paid secondary grouping merged back, `fillna(0)`. -/
def monPaidSales (df : List Rec) (k : Nat) : ℚ := mergedVal df ym paidPred (·.total_amount) k

/-- Monthly `Returns`: returns secondary grouping merged back, `fillna(0)`. -/
def monReturns (df : List Rec) (k : Nat) : ℚ := mergedVal df ym retPred absAmount k

/-- Monthly `ReturnRate`: `Returns / PaidSales if PaidSales > 0 else nan`. -/
def monReturnRate (df : List Rec) (k : Nat) : Option ℚ :=
  if monPaidSales df k > 0 then some (monReturns df k / monPaidSales df k) else none

/-- Monthly `FreeRate`: `FreeCount / Transactions.replace({0: nan})`. -/
def monFreeRate (df : List Rec) (k : Nat) : Option ℚ :=
  if monTransactions df k = 0 then none
  else some (monFreeCount df k / (monTransactions df k : ℚ))

/-- The `NetSales` of the sorted monthly table at row position `i` (meaningful for
`i < (monKeys df).length`). -/
def monNetIdx (df : List Rec) (i : Nat) : ℚ := monNetSales df ((monKeys df).getD i 0)

/-- Column `MoM_NetSales = NetSales.pct_change()` at row position `i` of the sorted
monthly table. -/
def monMoM (df : List Rec) (i : Nat) : FVal :=
  if i = 0 then .nan
  else pctChange (some (monNetIdx df (i - 1))) (monNetIdx df i)

/-- Column `YoY_NetSales = NetSales.pct_change(periods=12)` at row position `i`. -/
def monYoY (df : List Rec) (i : Nat) : FVal :=
  if i < 12 then .nan
  else pctChange (some (monNetIdx df (i - 12))) (monNetIdx df i)

/-- Customer-hierarchy group-level key `(billing_group_id, billing_group_name)`. -/
def cgKey (r : Rec) : String × String := (r.billing_group_id, r.billing_group_name)

/-- Customer-hierarchy store-level key (group key plus store id and name). -/
def stKey (r : Rec) : String × String × String × String :=
  (r.billing_group_id, r.billing_group_name, r.store_id, r.store_name)

/-- Product key `(product_group, product_subcategory, product_name)`. -/
def prodKey (r : Rec) : String × String × String :=
  (r.product_group, r.product_subcategory, r.product_name)

/-- Geography key (prefecture). -/
def prefKey (r : Rec) : String := r.region

/-- Customer-side representative key. -/
def custRepKey (r : Rec) : String × String := (r.customer_rep_id, r.customer_rep_name)

/-- Company-side representative key. -/
def compRepKey (r : Rec) : String × String × String :=
  (r.company_rep_id, r.company_rep_name, r.company_rep_territory)

/-- Shared by `customer_hierarchy_summaries` / `product_summaries` / `prefecture_summary`
per-group columns, generically over the key: `NetSales`. -/
def keyNetSales {K : Type} [DecidableEq K] (df : List Rec) (key : Rec → K) (k : K) : ℚ :=
  groupSum df key k (·.total_amount)

/-- Per-group merged `PaidSales` (paid secondary grouping, `fillna(0)`). -/
def keyPaidSales {K : Type} [DecidableEq K] (df : List Rec) (key : Rec → K) (k : K) : ℚ :=
  mergedVal df key paidPred (·.total_amount) k

/-- Per-group merged `Returns` (returns secondary grouping, `fillna(0)`). -/
def keyReturns {K : Type} [DecidableEq K] (df : List Rec) (key : Rec → K) (k : K) : ℚ :=
  mergedVal df key retPred absAmount k

/-- Per-group `ReturnRate` under the `if PaidSales > 0 else nan` policy
(`customer_hierarchy_summaries`, `prefecture_summary`). -/
def keyReturnRate {K : Type} [DecidableEq K] (df : List Rec) (key : Rec → K) (k : K) : Option ℚ :=
  if keyPaidSales df key k > 0 then some (keyReturns df key k / keyPaidSales df key k) else none

/-- Per-group `FreeRate = FreeCount / Transactions.replace({0: nan})`
(`prefecture_summary`). -/
def keyFreeRate {K : Type} [DecidableEq K] (df : List Rec) (key : Rec → K) (k : K) : Option ℚ :=
  if groupCount df key k = 0 then none
  else some (groupSum df key k (fun r => (r.is_free_flag : ℚ)) / (groupCount df key k : ℚ))

/-- The `product_summaries` merged `PaidQty` (paid quantity secondary grouping). -/
def keyPaidQty {K : Type} [DecidableEq K] (df : List Rec) (key : Rec → K) (k : K) : ℚ :=
  mergedVal df key paidPred (·.quantity) k

/-- The `product_summaries` column `AvgPricePaid`: `PaidSales / PaidQty if PaidQty > 0 else nan`. -/
def keyAvgPricePaid {K : Type} [DecidableEq K] (df : List Rec) (key : Rec → K) (k : K) : Option ℚ :=
  if keyPaidQty df key k > 0 then some (keyPaidSales df key k / keyPaidQty df key k) else none

/-- The `prefecture_summary` column `Stores`: distinct ship-to store ids in the region. -/
def prefStores (df : List Rec) (k : String) : Nat :=
  (((df.filter (fun r => decide (prefKey r = k))).map (·.store_id)).dedup).length

/-! ## Price×quantity bins (`price_quantity_bins`) -/

/-- The five fixed quantity bins of
`pd.cut(bins=[0,10,20,50,100,inf], right=True)`. -/
inductive QtyBin where
  | le10 : QtyBin
  | b11to20 : QtyBin
  | b21to50 : QtyBin
  | b51to100 : QtyBin
  | over100 : QtyBin
deriving DecidableEq, Repr

/-- The cut `pd.cut` of a quantity: right-inclusive intervals `(0,10], (10,20],
(20,50], (50,100], (100,∞)`; a quantity `≤ 0` falls outside every interval
and becomes `NaN` (`none`), whose rows the grouping then drops. -/
def binOf (q : ℚ) : Option QtyBin :=
  if q ≤ 0 then none
  else if q ≤ 10 then some .le10
  else if q ≤ 20 then some .b11to20
  else if q ≤ 50 then some .b21to50
  else if q ≤ 100 then some .b51to100
  else some .over100

/-- Membership of a paid row in a bin group. -/
def binPred (b : QtyBin) (r : Rec) : Bool :=
  paidPred r && decide (binOf r.quantity = some b)

/-- Per-bin `PaidSales` (sum over the paid rows cut into `b`). -/
def binPaidSales (df : List Rec) (b : QtyBin) : ℚ :=
  sumBy (df.filter (binPred b)) (·.total_amount)

/-- Per-bin `PaidQty`. -/
def binPaidQty (df : List Rec) (b : QtyBin) : ℚ :=
  sumBy (df.filter (binPred b)) (·.quantity)

/-- Per-bin `Transactions`. -/
def binTransactions (df : List Rec) (b : QtyBin) : Nat :=
  (df.filter (binPred b)).length

/-- Per-bin `AvgPrice = PaidSales / PaidQty.replace({0: np.nan})`. -/
def binAvgPrice (df : List Rec) (b : QtyBin) : Option ℚ :=
  if binPaidQty df b = 0 then none
  else some (binPaidSales df b / binPaidQty df b)

/-! ## Output column sets

The column lists of the summary frames the Summary Assembler writes, read off
the `agg(...)` names, the groupby keys restored by `reset_index`, and the
columns added by the merges and assignments, in source order. -/

/-- Columns of `reps_customer_summary` (`reps_summaries`, customer side):
the two key columns, the four base aggregates, and nothing else but the
merged `Returns` (the code computes no `PaidSales` and no ratio column for
the representative groupings). -/
def reps_customer_columns : List String :=
  ["顧客担当者ID", "顧客担当者名", "NetSales", "Quantity", "Transactions",
   "FreeCount", "Returns"]

/-- Columns of `reps_company_summary` (`reps_summaries`, company side). -/
def reps_company_columns : List String :=
  ["自社担当者ID", "出荷時自社担当者名", "出荷時自社担当者テリトリコード",
   "NetSales", "Quantity", "Transactions", "FreeCount", "Returns"]

/-- Columns of `price_quantity_bins` (no `Returns`, no secondary grouping:
`PaidSales` is aggregated directly on the paid-only sub-frame). -/
def price_quantity_bins_columns : List String :=
  ["qty_bin", "PaidSales", "PaidQty", "Transactions", "AvgPrice"]

/-- Columns of `monthly_summary`. -/
def monthly_summary_columns : List String :=
  ["year_month", "NetSales", "Quantity", "Transactions", "FreeCount",
   "PaidSales", "Returns", "ReturnRate", "FreeRate", "MoM_NetSales",
   "YoY_NetSales"]

/-- Columns of `customer_group_summary`. -/
def customer_group_columns : List String :=
  ["請求先顧客法人グループID", "請求先顧客法人グループ法人名", "NetSales",
   "Quantity", "Transactions", "FreeCount", "Returns", "PaidSales",
   "ReturnRate"]

/-- Columns of `product_summary` (carries `AvgPricePaid`; no `ReturnRate`,
no `FreeRate`). -/
def product_summary_columns : List String :=
  ["製品グループ名", "製品サブカテゴリ名", "製品名称", "NetSales", "Quantity",
   "Transactions", "FreeCount", "Returns", "PaidSales", "PaidQty",
   "AvgPricePaid"]

/-! ## Mutable-frame semantics for the frame-effect claim

The two functions that attach columns (`run_quality_checks`,
`price_quantity_bins`) do so on frames obtained by boolean-mask selection and
`.copy()`.  To be able to even state that the input frame is not mutated, we
run them over an explicit store of frames: boolean selection and `.copyims`
allocate fresh frames, and a column assignment `x["col"] = v` writes the
frame `x` refers to in place. -/

/-- A heap of data frames; a frame reference is an index into it. -/
structure Store where
  frames : List (List XRow)
deriving Repr

/-- Read the frame a reference designates (a dangling reference reads empty). -/
def readF (s : Store) (ref : Nat) : List XRow := s.frames.getD ref []

/-- Allocate a fresh frame at index `s.frames.length`. -/
def pushF (s : Store) (f : List XRow) : Store := ⟨s.frames ++ [f]⟩

/-- Overwrite the frame a reference designates (a column assignment). -/
def writeF (s : Store) (ref : Nat) (f : List XRow) : Store := ⟨s.frames.set ref f⟩

/-- Set the `issue` column of every row of a frame value. -/
def setIssue (f : List XRow) (lbl : String) : List XRow :=
  f.map (fun x => { x with issue := some lbl })

/-- Set the `calc_diff` column of every row of a frame value. -/
def setCalcDiff (f : List XRow) : List XRow :=
  f.map (fun x => { x with calcDiff := some (diffOf x.base) })

/-- Selection `df.loc[mask_free_nonzero]` as a frame value. -/
def rqcFree (df : List XRow) : List XRow := df.filter (fun x => maskFree x.base)

/-- Selection `df.loc[mask_return_bad]` as a frame value. -/
def rqcRet (df : List XRow) : List XRow := df.filter (fun x => maskRet x.base)

/-- Selection `df.loc[mask_paid].loc[mask_mismatch]` as a frame value. -/
def rqcMis (tol : ℚ) (df : List XRow) : List XRow :=
  df.filter (fun x => maskPaid x.base && maskMismatch tol x.base)

/-- Run of `run_quality_checks`, statement by statement, over the frame store.
Stage 1: `tmp = df.loc[mask_free_nonzero].copy()` — allocate the copy. -/
def rqcS1 (s : Store) (d : Nat) : Store := pushF s (rqcFree (readF s d))

/-- Stage 2: `tmp["issue"] = "FREE_NONZERO_AMOUNT"` — in-place column
assignment on the frame allocated in stage 1. -/
def rqcS2 (s : Store) (d : Nat) : Store :=
  writeF (rqcS1 s d) s.frames.length
    (setIssue (readF (rqcS1 s d) s.frames.length) "FREE_NONZERO_AMOUNT")

/-- Stage 3: `tmp = df.loc[mask_return_bad].copy()`. -/
def rqcS3 (s : Store) (d : Nat) : Store := pushF (rqcS2 s d) (rqcRet (readF s d))

/-- Stage 4: `tmp["issue"] = "RETURN_SIGN_MISMATCH"`. -/
def rqcS4 (s : Store) (d : Nat) : Store :=
  writeF (rqcS3 s d) (s.frames.length + 1)
    (setIssue (readF (rqcS3 s d) (s.frames.length + 1)) "RETURN_SIGN_MISMATCH")

/-- Stage 5: `tmp = df.loc[mask_paid].loc[mask_mismatch].copy()`. -/
def rqcS5 (s : Store) (d : Nat) (tol : ℚ) : Store :=
  pushF (rqcS4 s d) (rqcMis tol (readF s d))

/-- Stage 6: `tmp["calc_diff"] = diff.loc[mask_mismatch]`. -/
def rqcS6 (s : Store) (d : Nat) (tol : ℚ) : Store :=
  writeF (rqcS5 s d tol) (s.frames.length + 2)
    (setCalcDiff (readF (rqcS5 s d tol) (s.frames.length + 2)))

/-- Stage 7: `tmp["issue"] = "PRICE_QTY_MISMATCH"`. -/
def rqcS7 (s : Store) (d : Nat) (tol : ℚ) : Store :=
  writeF (rqcS6 s d tol) (s.frames.length + 2)
    (setIssue (readF (rqcS6 s d tol) (s.frames.length + 2)) "PRICE_QTY_MISMATCH")

/-- The engine `run_quality_checks` with its mutations made explicit: the three block
copies are allocated and labelled in place, and the final `pd.concat` reads
the three block frames.  Returns the final store and the issues-frame value. -/
def run_quality_checks_st (s : Store) (dfRef : Nat) (tol : ℚ) : Store × List XRow :=
  (rqcS7 s dfRef tol,
   readF (rqcS7 s dfRef tol) s.frames.length
     ++ readF (rqcS7 s dfRef tol) (s.frames.length + 1)
     ++ readF (rqcS7 s dfRef tol) (s.frames.length + 2))

/-- One row of the `price_quantity_bins` output table. -/
structure BinRow where
  qty_bin : QtyBin
  PaidSales : ℚ
  PaidQty : ℚ
  Transactions : Nat
  AvgPrice : Option ℚ
deriving DecidableEq, Repr

/-- The `price_quantity_bins` aggregate value on a record list (all five bin
categories appear, as `groupby(observed=False)` on the `pd.cut` categorical
keeps empty categories; rows whose quantity falls in no bin are dropped). -/
def binsTable (df : List Rec) : List BinRow :=
  [QtyBin.le10, QtyBin.b11to20, QtyBin.b21to50, QtyBin.b51to100, QtyBin.over100].map
    (fun b =>
      { qty_bin := b
        PaidSales := binPaidSales df b
        PaidQty := binPaidQty df b
        Transactions := binTransactions df b
        AvgPrice := binAvgPrice df b })

/-- The `qty_bin` column assignment applied to one row of the copy `d`. -/
def setQtyBin (x : XRow) : XRow :=
  { x with qtyBin := (binOf x.base.quantity).map (fun b => reprStr b) }

/-- Pipeline `price_quantity_bins` stage 1: `d = df[df["合計出荷金額"] > 0].copy()`. -/
def pqbS1 (s : Store) (d : Nat) : Store :=
  pushF s ((readF s d).filter (fun x => paidPred x.base))

/-- The frame value of the copy `d` after stage 1. -/
def pqbD (s : Store) (d : Nat) : List XRow := readF (pqbS1 s d) s.frames.length

/-- Stage 2: `d["qty_bin"] = pd.cut(...)` — in-place column assignment on `d`. -/
def pqbS2 (s : Store) (d : Nat) : Store :=
  writeF (pqbS1 s d) s.frames.length ((pqbD s d).map setQtyBin)

/-- The pure value of the `price_quantity_bins` output on a frame value. -/
def price_quantity_bins_frame (df : List XRow) : List BinRow :=
  if df.filter (fun x => paidPred x.base) = [] then []
  else binsTable ((df.filter (fun x => paidPred x.base)).map (·.base))

/-- Pipeline `price_quantity_bins` with its mutation made explicit: the paid sub-frame
is copied into a fresh frame `d`, the `qty_bin` column is assigned in place on
`d`, and the grouped table is computed from `d`; an empty paid sub-frame is
returned as-is (empty output). -/
def price_quantity_bins_st (s : Store) (dfRef : Nat) : Store × List BinRow :=
  if pqbD s dfRef = [] then (pqbS1 s dfRef, [])
  else (pqbS2 s dfRef,
    binsTable ((readF (pqbS2 s dfRef) s.frames.length).map (·.base)))

/-! ## Helper lemmas -/

theorem dateLE_refl (a : Date) : dateLE a a = true := by
  simp [dateLE]

theorem dateLE_trans {a b c : Date} (h1 : dateLE a b = true) (h2 : dateLE b c = true) :
    dateLE a c = true := by
  simp only [dateLE, decide_eq_true_eq] at h1 h2 ⊢
  omega

theorem find?_keyed_map {K : Type} [DecidableEq K] (v : K → ℚ) (k : K) :
    ∀ l : List K,
      (l.map (fun k' => (k', v k'))).find? (fun q => decide (q.1 = k)) =
        if k ∈ l then some (k, v k) else none := by
  intro l
  induction l with
  | nil => simp
  | cons a l ih =>
    by_cases hak : a = k
    · subst hak
      simp [List.find?_cons]
    · simp only [List.map_cons, List.find?_cons]
      have : (decide ((a, v a).1 = k)) = false := by simpa using hak
      simp [this, ih, hak, Ne.symm hak]

/-- The left-merge-with-`fillna(0)` of a filtered secondary grouping is, per
key, exactly the sum over the filtered rows of that key's group — in
particular `0` (not absent) for a group with no matching rows. -/
theorem mergedVal_eq_sum {K : Type} [DecidableEq K] (df : List Rec) (key : Rec → K)
    (pred : Rec → Bool) (f : Rec → ℚ) (k : K) :
    mergedVal df key pred f k =
      sumBy (df.filter (fun r => pred r && decide (key r = k))) f := by
  unfold mergedVal subPairs
  rw [find?_keyed_map]
  have hff : df.filter (fun r => pred r && decide (key r = k)) =
      (df.filter pred).filter (fun r => decide (key r = k)) := by
    rw [List.filter_filter]
    exact List.filter_congr (fun x _ => Bool.and_comm _ _)
  by_cases hk : k ∈ groupKeys (df.filter pred) key
  · rw [if_pos hk, hff]
    rfl
  · rw [if_neg hk]
    have hnil : df.filter (fun r => pred r && decide (key r = k)) = [] := by
      rw [List.filter_eq_nil_iff]
      intro r hr
      simp only [Bool.and_eq_true, decide_eq_true_eq, not_and]
      intro hp hkey
      exact hk (List.mem_dedup.mpr (List.mem_map.mpr ⟨r, List.mem_filter.mpr ⟨hr, hp⟩, hkey⟩))
    simp [hnil, sumBy]

theorem groupSum_cons {K : Type} [DecidableEq K] (r : Rec) (df : List Rec)
    (key : Rec → K) (k : K) (f : Rec → ℚ) :
    groupSum (r :: df) key k f =
      (if key r = k then f r else 0) + groupSum df key k f := by
  unfold groupSum sumBy
  rw [List.filter_cons]
  by_cases h : key r = k
  · rw [if_pos (by simpa using h), if_pos h, List.map_cons, List.sum_cons]
  · rw [if_neg (by simpa using h), if_neg h, zero_add]

theorem sum_map_ite_eq {K : Type} [DecidableEq K] (a : K) (c : ℚ) :
    ∀ ks : List K, ks.Nodup → a ∈ ks →
      (ks.map (fun k => if a = k then c else 0)).sum = c := by
  intro ks
  induction ks with
  | nil => intro _ h; cases h
  | cons b ks ih =>
    intro hnd hmem
    rcases List.mem_cons.mp hmem with hab | hmem'
    · subst hab
      have : ∀ k ∈ ks, (if a = k then c else (0 : ℚ)) = 0 := by
        intro k hk
        have : a ≠ k := fun he => (List.nodup_cons.mp hnd).1 (he ▸ hk)
        simp [this]
      simp only [List.map_cons, List.sum_cons, if_pos rfl]
      rw [List.sum_eq_zero (by intro x hx; rcases List.mem_map.mp hx with ⟨k, hk, hv⟩; rw [← hv]; exact this k hk)]
      simp
    · have hba : ¬a = b := by
        intro he
        exact (List.nodup_cons.mp hnd).1 (he ▸ hmem')
      simp only [List.map_cons, List.sum_cons, if_neg hba]
      rw [ih (List.nodup_cons.mp hnd).2 hmem']
      ring

theorem sum_groupSum_of_complete {K : Type} [DecidableEq K] (key : Rec → K) (f : Rec → ℚ) :
    ∀ (df : List Rec) (ks : List K), ks.Nodup → (∀ r ∈ df, key r ∈ ks) →
      (ks.map (fun k => groupSum df key k f)).sum = sumBy df f := by
  intro df
  induction df with
  | nil =>
    intro ks _ _
    rw [List.sum_eq_zero]
    · simp [sumBy]
    · intro x hx
      rcases List.mem_map.mp hx with ⟨k, _, hv⟩
      rw [← hv]
      simp [groupSum, sumBy]
  | cons r df ih =>
    intro ks hnd hcov
    have hmap : ks.map (fun k => groupSum (r :: df) key k f) =
        ks.map (fun k => (if key r = k then f r else 0) + groupSum df key k f) :=
      List.map_congr_left (fun k _ => groupSum_cons r df key k f)
    rw [hmap, List.sum_map_add,
      sum_map_ite_eq (key r) (f r) ks hnd (hcov r (List.mem_cons_self r df)),
      ih ks hnd (fun x hx => hcov x (List.mem_cons_of_mem r hx))]
    simp [sumBy]

/-- Sum over the observed groups of the per-group `NetSales` equals the sum
over all rows. -/
theorem sum_over_groups {K : Type} [DecidableEq K] (df : List Rec) (key : Rec → K)
    (f : Rec → ℚ) :
    ((groupKeys df key).map (fun k => groupSum df key k f)).sum = sumBy df f :=
  sum_groupSum_of_complete key f df (groupKeys df key) (List.nodup_dedup _)
    (fun r hr => List.mem_dedup.mpr (List.mem_map.mpr ⟨r, hr, rfl⟩))

theorem countP_and_const {α : Type} (l : List α) (p : α → Bool) (b : Bool) :
    l.countP (fun y => p y && b) = if b then l.countP p else 0 := by
  cases b
  · simp [List.countP_eq_zero]
  · simp

theorem readF_pushF_lt (s : Store) (f : List XRow) {ref : Nat}
    (h : ref < s.frames.length) : readF (pushF s f) ref = readF s ref := by
  unfold readF pushF
  simp only [List.getD_eq_getElem?_getD, List.getElem?_append, if_pos h]

theorem readF_pushF_self (s : Store) (f : List XRow) :
    readF (pushF s f) s.frames.length = f := by
  unfold readF pushF
  simp [List.getD_eq_getElem?_getD, List.getElem?_concat_length]

theorem readF_writeF_ne (s : Store) (t : Nat) (f : List XRow) {ref : Nat}
    (h : t ≠ ref) : readF (writeF s t f) ref = readF s ref := by
  unfold readF writeF
  simp only [List.getD_eq_getElem?_getD, List.getElem?_set_ne h]

theorem readF_writeF_self (s : Store) (t : Nat) (f : List XRow)
    (h : t < s.frames.length) : readF (writeF s t f) t = f := by
  unfold readF writeF
  simp [List.getD_eq_getElem?_getD, List.getElem?_set_self h]

theorem pushF_length (s : Store) (f : List XRow) :
    (pushF s f).frames.length = s.frames.length + 1 := by
  simp [pushF]

theorem writeF_length (s : Store) (t : Nat) (f : List XRow) :
    (writeF s t f).frames.length = s.frames.length := by
  simp [writeF]

theorem monKeys_sorted (df : List Rec) : List.Sorted (· ≤ ·) (monKeys df) :=
  List.sorted_insertionSort _ _

theorem monKeys_nodup (df : List Rec) : (monKeys df).Nodup :=
  (List.perm_insertionSort _ _).symm.nodup (List.nodup_dedup _)

theorem monKeys_mem (df : List Rec) (k : Nat) :
    k ∈ monKeys df ↔ k ∈ df.map ym := by
  unfold monKeys
  rw [(List.perm_insertionSort (· ≤ ·) (groupKeys df ym)).mem_iff]
  exact List.mem_dedup

/-! ## Concrete test records -/

/-- A concrete transaction line with fixed identity columns (the identity
strings are irrelevant to the claims exercised on it). -/
def mkRec (dt : Date) (price qty amt : ℚ) (rf ff : Nat) : Rec :=
  { document_id := "D1", ship_date := dt, billing_group_id := "G1",
    billing_group_name := "GN", store_id := "S1", store_name := "SN",
    region := "R1", customer_rep_id := "CR", customer_rep_name := "CRN",
    company_rep_id := "ER", company_rep_name := "ERN",
    company_rep_territory := "T1", product_group := "PG",
    product_subcategory := "PS", product_name := "PN", unit_price := price,
    quantity := qty, total_amount := amt, is_return_flag := rf,
    is_free_flag := ff }

/-- The §8 four-record quality fixture: a valid return, a sign-mismatched
return, a free line with a nonzero amount, and a paid line off by 0.1. -/
def c5df : List XRow :=
  [mkRow (mkRec ⟨2022, 1, 10⟩ 50 (-2) (-100) 1 0),
   mkRow (mkRec ⟨2022, 1, 11⟩ 0 3 (-50) 1 0),
   mkRow (mkRec ⟨2022, 1, 12⟩ 0 1 (25 / 2) 0 1),
   mkRow (mkRec ⟨2022, 1, 13⟩ 10 5 (499 / 10) 0 0)]

/-- A free-of-charge line with amount 0 — its groups have no paid and no
returned rows. -/
def freeRec : Rec := mkRec ⟨2022, 3, 1⟩ 0 0 0 0 1

/-- Two months with NetSales 0 then 110 (a month of only free lines followed
by a paid month). -/
def c3df : List Rec :=
  [mkRec ⟨2022, 1, 5⟩ 0 1 0 0 1, mkRec ⟨2022, 2, 7⟩ 11 10 110 0 0]

/-- Three months with NetSales 100, 110, 121 (the §8 temporal fixture). -/
def c3df3 : List Rec :=
  [mkRec ⟨2022, 1, 1⟩ 100 1 100 0 0, mkRec ⟨2022, 2, 1⟩ 110 1 110 0 0,
   mkRec ⟨2022, 3, 1⟩ 121 1 121 0 0]

/-! ## Claims -/

/-- C10: on the empty record collection `compute_core_kpis` returns all
additive KPIs zero and all three ratios "not available" (`none`, the
embedding of `np.nan`), and — being a total function, like the source, whose
guards skip the division — it returns rather than raising. -/
theorem C10_empty_collection_kpis :
    compute_core_kpis [] =
      { NetSales := 0, PaidSales := 0, Returns := 0, ReturnRate := none,
        FreeCount := 0, FreeRate := none, Transactions := 0,
        AvgPricePaid := none } := by
  rfl

/-- C7: the date filter is inclusive on both sides — any record of the
collection whose ship date equals the start or the end of a (non-inverted)
date window is in the filtered collection handed to the pipelines. -/
theorem C7_date_filter_boundary_inclusive (df : List Rec) (r : Rec) (s e : Date)
    (hmem : r ∈ df) (hwin : dateLE s e = true)
    (hb : r.ship_date = s ∨ r.ship_date = e) :
    r ∈ filter_by_date df (some s) (some e) := by
  have h1 : dateLE s r.ship_date = true := by
    rcases hb with hb | hb
    · rw [hb]; exact dateLE_refl s
    · rw [hb]; exact hwin
  have h2 : dateLE r.ship_date e = true := by
    rcases hb with hb | hb
    · rw [hb]; exact hwin
    · rw [hb]; exact dateLE_refl e
  show r ∈ (df.filter (fun r => dateLE s r.ship_date)).filter (fun r => dateLE r.ship_date e)
  exact List.mem_filter.mpr ⟨List.mem_filter.mpr ⟨hmem, h1⟩, h2⟩

/-- Witness for C7 at a concrete record dated exactly on the window start. -/
theorem C7_witness :
    freeRec ∈ [freeRec] ∧ dateLE ⟨2022, 3, 1⟩ ⟨2022, 12, 31⟩ = true ∧
      freeRec.ship_date = ⟨2022, 3, 1⟩ ∧
      freeRec ∈ filter_by_date [freeRec] (some ⟨2022, 3, 1⟩) (some ⟨2022, 12, 31⟩) :=
  ⟨by decide, by decide, by decide,
    C7_date_filter_boundary_inclusive [freeRec] freeRec ⟨2022, 3, 1⟩ ⟨2022, 12, 31⟩
      (by decide) (by decide) (Or.inl (by decide))⟩

/-- C1 counterexample: with an inverted window (`start > end`, so
`dateLE start end = false`) over a one-record collection, `filter_by_date`
does not reject anything: it returns — the empty collection — and the
aggregation then runs on it and produces a (zero) KPI result.  This refutes
the claim that the configuration is rejected with an error before any
aggregation runs: the source has no such check and every stage is total. -/
theorem C1_counterexample :
    dateLE ⟨2022, 7, 1⟩ ⟨2022, 5, 1⟩ = false ∧
      filter_by_date [freeRec] (some ⟨2022, 7, 1⟩) (some ⟨2022, 5, 1⟩) = [] ∧
      compute_core_kpis (filter_by_date [freeRec] (some ⟨2022, 7, 1⟩) (some ⟨2022, 5, 1⟩)) =
        { NetSales := 0, PaidSales := 0, Returns := 0, ReturnRate := none,
          FreeCount := 0, FreeRate := none, Transactions := 0,
          AvgPricePaid := none } :=
  ⟨by decide, by decide, by decide⟩

/-- C1 (amended): an inverted date window is not rejected; `filter_by_date`
silently yields the empty collection (no ship date can be on or after `start`
and on or before `end` when `start > end`), and the aggregation then runs on
that empty collection, producing the empty-collection KPI result rather than
an error. -/
theorem C1_inverted_window_silent_empty (df : List Rec) (s e : Date)
    (hinv : dateLE s e = false) :
    filter_by_date df (some s) (some e) = [] ∧
      compute_core_kpis (filter_by_date df (some s) (some e)) = compute_core_kpis [] := by
  have hnil : filter_by_date df (some s) (some e) = [] := by
    show (df.filter (fun r => dateLE s r.ship_date)).filter (fun r => dateLE r.ship_date e) = []
    rw [List.filter_eq_nil_iff]
    intro r hr
    intro h2
    have h1 : dateLE s r.ship_date = true := (List.mem_filter.mp hr).2
    have := dateLE_trans h1 h2
    rw [hinv] at this
    exact Bool.false_ne_true this
  exact ⟨hnil, by rw [hnil]⟩

/-- Witness for the amended C1 at a concrete inverted window. -/
theorem C1_witness :
    dateLE ⟨2022, 7, 1⟩ ⟨2022, 5, 1⟩ = false ∧
      filter_by_date c3df (some ⟨2022, 7, 1⟩) (some ⟨2022, 5, 1⟩) = [] :=
  ⟨by decide,
    (C1_inverted_window_silent_empty c3df ⟨2022, 7, 1⟩ ⟨2022, 5, 1⟩ (by decide)).1⟩

/-- C8: `NetSales` of the KPI engine equals the sum over the observed groups
of the per-group `NetSales` of the customer-group pipeline, and likewise of
the product pipeline (sum-over-groups equals sum-over-all). -/
theorem C8_netsales_sum_over_groups (df : List Rec) :
    (compute_core_kpis df).NetSales =
        ((groupKeys df cgKey).map (fun k => keyNetSales df cgKey k)).sum ∧
      (compute_core_kpis df).NetSales =
        ((groupKeys df prodKey).map (fun k => keyNetSales df prodKey k)).sum := by
  have h : (compute_core_kpis df).NetSales = sumBy df (·.total_amount) := rfl
  exact ⟨by rw [h, ← sum_over_groups df cgKey]; rfl,
    by rw [h, ← sum_over_groups df prodKey]; rfl⟩

set_option maxRecDepth 8000 in
/-- C5: on the §8 four-record fixture with tolerance `0.01` the quality
engine emits exactly three violations — the FREE, RETURN and PRICE rows in
block order — and the attached signed discrepancy of the price-mismatch row
is exactly `0.1` (`10 × 5 − 49.9`). -/
theorem C5_quality_fixture :
    run_quality_checks c5df (1 / 100) =
        [{ base := mkRec ⟨2022, 1, 12⟩ 0 1 (25 / 2) 0 1,
           issue := some "FREE_NONZERO_AMOUNT" },
         { base := mkRec ⟨2022, 1, 11⟩ 0 3 (-50) 1 0,
           issue := some "RETURN_SIGN_MISMATCH" },
         { base := mkRec ⟨2022, 1, 13⟩ 10 5 (499 / 10) 0 0,
           issue := some "PRICE_QTY_MISMATCH", calcDiff := some (1 / 10) }] ∧
      (run_quality_checks c5df (1 / 100)).length = 3 :=
  ⟨of_decide_eq_true (by with_unfolding_all rfl),
   of_decide_eq_true (by with_unfolding_all rfl)⟩

/-- C4: wherever a ratio's denominator is zero — `PaidSales` for
`ReturnRate`, the paid quantity sum for `AvgPrice`, the row/transaction count
for `FreeRate` — the overall KPI set and every per-group ratio of the
pipelines deliver the explicit "not available" value `none` (the embedding of
`np.nan`, distinguishable from `some 0`); the guards skip the division, so no
division error can be raised. -/
theorem C4_zero_denominator_not_available (df : List Rec) :
    ((compute_core_kpis df).PaidSales = 0 → (compute_core_kpis df).ReturnRate = none)
  ∧ (sumBy (df.filter paidPred) (·.quantity) = 0 → (compute_core_kpis df).AvgPricePaid = none)
  ∧ ((compute_core_kpis df).Transactions = 0 → (compute_core_kpis df).FreeRate = none)
  ∧ (∀ k, keyPaidQty df prodKey k = 0 → keyAvgPricePaid df prodKey k = none)
  ∧ (∀ k, keyPaidSales df cgKey k = 0 → keyReturnRate df cgKey k = none)
  ∧ (∀ k, keyPaidSales df stKey k = 0 → keyReturnRate df stKey k = none)
  ∧ (∀ k, keyPaidSales df prefKey k = 0 → keyReturnRate df prefKey k = none)
  ∧ (∀ k, groupCount df prefKey k = 0 → keyFreeRate df prefKey k = none)
  ∧ (∀ k, monPaidSales df k = 0 → monReturnRate df k = none)
  ∧ (∀ k, monTransactions df k = 0 → monFreeRate df k = none)
  ∧ (∀ b, binPaidQty df b = 0 → binAvgPrice df b = none) := by
  refine ⟨?_, ?_, ?_, ?_, ?_, ?_, ?_, ?_, ?_, ?_, ?_⟩
  · intro h
    have hp : (compute_core_kpis df).PaidSales =
        sumBy (df.filter (fun r => decide (r.total_amount > 0))) (·.total_amount) := rfl
    rw [hp] at h
    show (if sumBy (df.filter (fun r => decide (r.total_amount > 0))) (·.total_amount) > 0
      then some _ else none) = none
    rw [h]
    simp
  · intro h
    show (if sumBy (df.filter (fun r => decide (r.total_amount > 0))) (·.quantity) > 0
      then some _ else none) = none
    have h' : sumBy (df.filter (fun r => decide (r.total_amount > 0))) (·.quantity) = 0 := h
    rw [h']
    simp
  · intro h
    have h' : df.length = 0 := h
    show (if df.length > 0 then some _ else none) = none
    rw [h']
    simp
  · intro k h
    unfold keyAvgPricePaid
    rw [h]
    simp
  · intro k h
    unfold keyReturnRate
    rw [h]
    simp
  · intro k h
    unfold keyReturnRate
    rw [h]
    simp
  · intro k h
    unfold keyReturnRate
    rw [h]
    simp
  · intro k h
    unfold keyFreeRate
    rw [h]
    simp
  · intro k h
    unfold monReturnRate
    rw [h]
    simp
  · intro k h
    unfold monFreeRate
    rw [h]
    simp
  · intro b h
    unfold binAvgPrice
    rw [h]
    simp

/-- Witness for C4: the empty collection zeroes every overall denominator;
a collection of one free zero-amount line gives observed groups in every
pipeline whose paid sums, paid quantities and returns are all zero. -/
theorem C4_witness :
    ((compute_core_kpis []).PaidSales = 0 ∧ (compute_core_kpis []).ReturnRate = none)
  ∧ (sumBy (List.filter paidPred []) (·.quantity) = 0 ∧ (compute_core_kpis []).AvgPricePaid = none)
  ∧ ((compute_core_kpis []).Transactions = 0 ∧ (compute_core_kpis []).FreeRate = none)
  ∧ (keyPaidQty [freeRec] prodKey (prodKey freeRec) = 0 ∧
      keyAvgPricePaid [freeRec] prodKey (prodKey freeRec) = none)
  ∧ (keyPaidSales [freeRec] cgKey (cgKey freeRec) = 0 ∧
      keyReturnRate [freeRec] cgKey (cgKey freeRec) = none)
  ∧ (keyPaidSales [freeRec] stKey (stKey freeRec) = 0 ∧
      keyReturnRate [freeRec] stKey (stKey freeRec) = none)
  ∧ (keyPaidSales [freeRec] prefKey (prefKey freeRec) = 0 ∧
      keyReturnRate [freeRec] prefKey (prefKey freeRec) = none)
  ∧ (groupCount [] prefKey "R1" = 0 ∧ keyFreeRate [] prefKey "R1" = none)
  ∧ (monPaidSales [freeRec] (ym freeRec) = 0 ∧ monReturnRate [freeRec] (ym freeRec) = none)
  ∧ (monTransactions [] 202203 = 0 ∧ monFreeRate [] 202203 = none)
  ∧ (binPaidQty [freeRec] QtyBin.le10 = 0 ∧ binAvgPrice [freeRec] QtyBin.le10 = none) :=
  ⟨⟨of_decide_eq_true (by with_unfolding_all rfl),
    (C4_zero_denominator_not_available []).1 (of_decide_eq_true (by with_unfolding_all rfl))⟩,
   ⟨of_decide_eq_true (by with_unfolding_all rfl),
    (C4_zero_denominator_not_available []).2.1 (of_decide_eq_true (by with_unfolding_all rfl))⟩,
   ⟨of_decide_eq_true (by with_unfolding_all rfl),
    (C4_zero_denominator_not_available []).2.2.1 (of_decide_eq_true (by with_unfolding_all rfl))⟩,
   ⟨of_decide_eq_true (by with_unfolding_all rfl),
    (C4_zero_denominator_not_available [freeRec]).2.2.2.1 _ (of_decide_eq_true (by with_unfolding_all rfl))⟩,
   ⟨of_decide_eq_true (by with_unfolding_all rfl),
    (C4_zero_denominator_not_available [freeRec]).2.2.2.2.1 _ (of_decide_eq_true (by with_unfolding_all rfl))⟩,
   ⟨of_decide_eq_true (by with_unfolding_all rfl),
    (C4_zero_denominator_not_available [freeRec]).2.2.2.2.2.1 _ (of_decide_eq_true (by with_unfolding_all rfl))⟩,
   ⟨of_decide_eq_true (by with_unfolding_all rfl),
    (C4_zero_denominator_not_available [freeRec]).2.2.2.2.2.2.1 _ (of_decide_eq_true (by with_unfolding_all rfl))⟩,
   ⟨of_decide_eq_true (by with_unfolding_all rfl),
    (C4_zero_denominator_not_available []).2.2.2.2.2.2.2.1 _ (of_decide_eq_true (by with_unfolding_all rfl))⟩,
   ⟨of_decide_eq_true (by with_unfolding_all rfl),
    (C4_zero_denominator_not_available [freeRec]).2.2.2.2.2.2.2.2.1 _ (of_decide_eq_true (by with_unfolding_all rfl))⟩,
   ⟨of_decide_eq_true (by with_unfolding_all rfl),
    (C4_zero_denominator_not_available []).2.2.2.2.2.2.2.2.2.1 _ (of_decide_eq_true (by with_unfolding_all rfl))⟩,
   ⟨of_decide_eq_true (by with_unfolding_all rfl),
    (C4_zero_denominator_not_available [freeRec]).2.2.2.2.2.2.2.2.2.2 _ (of_decide_eq_true (by with_unfolding_all rfl))⟩⟩

theorem countP_block (df : List XRow) (mask : XRow → Bool) (f : XRow → XRow)
    (q : XRow → Bool) :
    ((df.filter mask).map f).countP q = df.countP (fun y => q (f y) && mask y) := by
  rw [List.countP_map, List.countP_filter]
  rfl

theorem countP_rqc (df : List XRow) (tol : ℚ) (q : XRow → Bool) :
    (run_quality_checks df tol).countP q =
      df.countP (fun y => q ⟨y.base, some "FREE_NONZERO_AMOUNT", y.calcDiff, y.qtyBin⟩
          && maskFree y.base)
        + df.countP (fun y => q ⟨y.base, some "RETURN_SIGN_MISMATCH", y.calcDiff, y.qtyBin⟩
          && maskRet y.base)
        + df.countP (fun y => q ⟨y.base, some "PRICE_QTY_MISMATCH", some (diffOf y.base), y.qtyBin⟩
          && (maskPaid y.base && maskMismatch tol y.base)) := by
  unfold run_quality_checks
  rw [List.countP_append, List.countP_append, countP_block, countP_block, countP_block]

theorem countP_base_and_mask (df : List XRow) (xb : Rec) (mask : Rec → Bool) :
    df.countP (fun y => decide (y.base = xb) && mask y.base) =
      if mask xb then df.countP (fun y => decide (y.base = xb)) else 0 := by
  by_cases hm : mask xb
  · rw [if_pos hm]
    apply List.countP_congr
    intro y _
    simp only [Bool.and_eq_true, decide_eq_true_eq]
    constructor
    · intro h; exact h.1
    · intro h; exact ⟨h, h ▸ hm⟩
  · rw [if_neg hm, List.countP_eq_zero]
    intro y _
    simp only [Bool.and_eq_true, decide_eq_true_eq, not_and]
    intro hy hmask
    exact hm (hy ▸ hmask)

theorem countP_base_and_false (df : List XRow) (p : XRow → Bool)
    (hp : ∀ y, p y = false) : df.countP p = 0 := by
  rw [List.countP_eq_zero]
  intro y _
  rw [hp y]
  exact Bool.false_ne_true

/-- C6: the three quality rules are evaluated independently with no
deduplication: for any physical record value `x.base`, the number of issue
rows tagged with a rule's label and carrying that record equals the number of
occurrences of the record in the input satisfying that rule's condition (so a
record occurring once appears exactly once under each rule it violates), it
appears under no label whose condition it does not satisfy, and its total
number of appearances is the sum over the three rules.  In particular a
once-occurring record with `is_free_flag = 1` and `total_amount = 5.00`
satisfies only `maskFree`, hence appears exactly once, under
`FREE_NONZERO_AMOUNT`. -/
theorem C6_rules_independent_no_dedup (df : List XRow) (tol : ℚ) (x : XRow) :
    ((run_quality_checks df tol).countP
        (fun y => decide (y.base = x.base) && decide (y.issue = some "FREE_NONZERO_AMOUNT"))
      = if maskFree x.base then df.countP (fun y => decide (y.base = x.base)) else 0)
  ∧ ((run_quality_checks df tol).countP
        (fun y => decide (y.base = x.base) && decide (y.issue = some "RETURN_SIGN_MISMATCH"))
      = if maskRet x.base then df.countP (fun y => decide (y.base = x.base)) else 0)
  ∧ ((run_quality_checks df tol).countP
        (fun y => decide (y.base = x.base) && decide (y.issue = some "PRICE_QTY_MISMATCH"))
      = if maskPaid x.base && maskMismatch tol x.base then
          df.countP (fun y => decide (y.base = x.base)) else 0)
  ∧ ((run_quality_checks df tol).countP (fun y => decide (y.base = x.base))
      = (if maskFree x.base then df.countP (fun y => decide (y.base = x.base)) else 0)
        + (if maskRet x.base then df.countP (fun y => decide (y.base = x.base)) else 0)
        + (if maskPaid x.base && maskMismatch tol x.base then
            df.countP (fun y => decide (y.base = x.base)) else 0)) := by
  refine ⟨?_, ?_, ?_, ?_⟩
  · rw [countP_rqc]
    have h2 : df.countP (fun y =>
        (decide (y.base = x.base) && decide ((some "RETURN_SIGN_MISMATCH" : Option String) =
          some "FREE_NONZERO_AMOUNT")) && maskRet y.base) = 0 := by
      apply countP_base_and_false
      intro y
      simp
    have h3 : df.countP (fun y =>
        (decide (y.base = x.base) && decide ((some "PRICE_QTY_MISMATCH" : Option String) =
          some "FREE_NONZERO_AMOUNT")) && (maskPaid y.base && maskMismatch tol y.base)) = 0 := by
      apply countP_base_and_false
      intro y
      simp
    rw [h2, h3]
    have h1 : df.countP (fun y =>
        (decide (y.base = x.base) && decide ((some "FREE_NONZERO_AMOUNT" : Option String) =
          some "FREE_NONZERO_AMOUNT")) && maskFree y.base) =
        df.countP (fun y => decide (y.base = x.base) && maskFree y.base) := by
      apply List.countP_congr
      intro y _
      simp
    rw [h1, countP_base_and_mask]
    omega
  · rw [countP_rqc]
    have h1 : df.countP (fun y =>
        (decide (y.base = x.base) && decide ((some "FREE_NONZERO_AMOUNT" : Option String) =
          some "RETURN_SIGN_MISMATCH")) && maskFree y.base) = 0 := by
      apply countP_base_and_false
      intro y
      simp
    have h3 : df.countP (fun y =>
        (decide (y.base = x.base) && decide ((some "PRICE_QTY_MISMATCH" : Option String) =
          some "RETURN_SIGN_MISMATCH")) && (maskPaid y.base && maskMismatch tol y.base)) = 0 := by
      apply countP_base_and_false
      intro y
      simp
    rw [h1, h3]
    have h2 : df.countP (fun y =>
        (decide (y.base = x.base) && decide ((some "RETURN_SIGN_MISMATCH" : Option String) =
          some "RETURN_SIGN_MISMATCH")) && maskRet y.base) =
        df.countP (fun y => decide (y.base = x.base) && maskRet y.base) := by
      apply List.countP_congr
      intro y _
      simp
    rw [h2, countP_base_and_mask]
    omega
  · rw [countP_rqc]
    have h1 : df.countP (fun y =>
        (decide (y.base = x.base) && decide ((some "FREE_NONZERO_AMOUNT" : Option String) =
          some "PRICE_QTY_MISMATCH")) && maskFree y.base) = 0 := by
      apply countP_base_and_false
      intro y
      simp
    have h2 : df.countP (fun y =>
        (decide (y.base = x.base) && decide ((some "RETURN_SIGN_MISMATCH" : Option String) =
          some "PRICE_QTY_MISMATCH")) && maskRet y.base) = 0 := by
      apply countP_base_and_false
      intro y
      simp
    rw [h1, h2]
    have h3 : df.countP (fun y =>
        (decide (y.base = x.base) && decide ((some "PRICE_QTY_MISMATCH" : Option String) =
          some "PRICE_QTY_MISMATCH")) && (maskPaid y.base && maskMismatch tol y.base)) =
        df.countP (fun y => decide (y.base = x.base) && (maskPaid y.base && maskMismatch tol y.base)) := by
      apply List.countP_congr
      intro y _
      simp
    have h4 : df.countP (fun y => decide (y.base = x.base) &&
          (maskPaid y.base && maskMismatch tol y.base)) =
        if maskPaid x.base && maskMismatch tol x.base then
          df.countP (fun y => decide (y.base = x.base)) else 0 :=
      countP_base_and_mask df x.base (fun b => maskPaid b && maskMismatch tol b)
    rw [h3, h4]
    omega
  · rw [countP_rqc]
    have h1 : df.countP (fun y => decide (y.base = x.base) && maskFree y.base) =
        if maskFree x.base then df.countP (fun y => decide (y.base = x.base)) else 0 :=
      countP_base_and_mask df x.base maskFree
    have h2 : df.countP (fun y => decide (y.base = x.base) && maskRet y.base) =
        if maskRet x.base then df.countP (fun y => decide (y.base = x.base)) else 0 :=
      countP_base_and_mask df x.base maskRet
    have h3 : df.countP (fun y => decide (y.base = x.base) &&
          (maskPaid y.base && maskMismatch tol y.base)) =
        if maskPaid x.base && maskMismatch tol x.base then
          df.countP (fun y => decide (y.base = x.base)) else 0 :=
      countP_base_and_mask df x.base (fun b => maskPaid b && maskMismatch tol b)
    show df.countP (fun y => decide (y.base = x.base) && maskFree y.base)
        + df.countP (fun y => decide (y.base = x.base) && maskRet y.base)
        + df.countP (fun y => decide (y.base = x.base) &&
            (maskPaid y.base && maskMismatch tol y.base)) = _
    rw [h1, h2, h3]

/-- C3 counterexample: in a collection whose first month has `NetSales = 0`
(one free line) and whose second month has `NetSales = 110`, the code's
`pct_change` computes `(110 - 0) / 0` by float division and the
month-over-month value of the second row is `+inf` — a value that is *not*
"not available" (`pd.isna(inf)` is false) — refuting the claim that MoM is
undefined whenever the previous value is zero. -/
theorem C3_counterexample :
    monKeys c3df = [202201, 202202] ∧ monNetIdx c3df 0 = 0 ∧
      monNetIdx c3df 1 = 110 ∧ monMoM c3df 1 = FVal.inf true ∧
      FVal.inf true ≠ FVal.nan :=
  ⟨of_decide_eq_true (by with_unfolding_all rfl),
   of_decide_eq_true (by with_unfolding_all rfl),
   of_decide_eq_true (by with_unfolding_all rfl),
   of_decide_eq_true (by with_unfolding_all rfl), by decide⟩

/-- C3 (amended): the monthly table is sorted ascending by year-month with
one row per observed month; `MoM`/`YoY` on `NetSales` equal
`(curr − prev) / prev` at lag 1 resp. 12 and are "not available" (`nan`) when
the previous row is absent (the first row, resp. the first twelve rows) or
when `prev = 0 ∧ curr = 0`; but when `prev = 0` and `curr ≠ 0` the result is
a signed infinity (float division), not "not available". -/
theorem C3_temporal_mom_yoy (df : List Rec) :
    List.Sorted (· ≤ ·) (monKeys df)
  ∧ (monKeys df).Nodup
  ∧ monMoM df 0 = FVal.nan
  ∧ (∀ i, 1 ≤ i → monNetIdx df (i - 1) ≠ 0 →
      monMoM df i = FVal.val ((monNetIdx df i - monNetIdx df (i - 1)) / monNetIdx df (i - 1)))
  ∧ (∀ i, 1 ≤ i → monNetIdx df (i - 1) = 0 → monNetIdx df i = 0 → monMoM df i = FVal.nan)
  ∧ (∀ i, 1 ≤ i → monNetIdx df (i - 1) = 0 → 0 < monNetIdx df i → monMoM df i = FVal.inf true)
  ∧ (∀ i, 1 ≤ i → monNetIdx df (i - 1) = 0 → monNetIdx df i < 0 → monMoM df i = FVal.inf false)
  ∧ (∀ i, i < 12 → monYoY df i = FVal.nan)
  ∧ (∀ i, 12 ≤ i → monNetIdx df (i - 12) ≠ 0 →
      monYoY df i = FVal.val ((monNetIdx df i - monNetIdx df (i - 12)) / monNetIdx df (i - 12)))
  ∧ (∀ i, 12 ≤ i → monNetIdx df (i - 12) = 0 → monNetIdx df i = 0 → monYoY df i = FVal.nan)
  ∧ (∀ i, 12 ≤ i → monNetIdx df (i - 12) = 0 → 0 < monNetIdx df i → monYoY df i = FVal.inf true)
  ∧ (∀ i, 12 ≤ i → monNetIdx df (i - 12) = 0 → monNetIdx df i < 0 → monYoY df i = FVal.inf false) := by
  refine ⟨monKeys_sorted df, monKeys_nodup df, by simp [monMoM], ?_, ?_, ?_, ?_, ?_, ?_, ?_, ?_, ?_⟩
  · intro i hi hp
    have hi0 : ¬i = 0 := by omega
    simp [monMoM, pctChange, fdiv, hi0, hp]
  · intro i hi hp hc
    have hi0 : ¬i = 0 := by omega
    simp [monMoM, pctChange, fdiv, hi0, hp, hc]
  · intro i hi hp hc
    have hi0 : ¬i = 0 := by omega
    simp [monMoM, pctChange, fdiv, hi0, hp, hc]
  · intro i hi hp hc
    have hi0 : ¬i = 0 := by omega
    have hc' : ¬(0 : ℚ) < monNetIdx df i - 0 := by
      rw [sub_zero]
      exact not_lt.mpr (le_of_lt hc)
    simp [monMoM, pctChange, fdiv, hi0, hp, hc, hc', not_lt.mpr (le_of_lt hc)]
  · intro i hi
    simp [monYoY, hi]
  · intro i hi hp
    have hi' : ¬i < 12 := by omega
    simp [monYoY, pctChange, fdiv, hi', hp]
  · intro i hi hp hc
    have hi' : ¬i < 12 := by omega
    simp [monYoY, pctChange, fdiv, hi', hp, hc]
  · intro i hi hp hc
    have hi' : ¬i < 12 := by omega
    simp [monYoY, pctChange, fdiv, hi', hp, hc]
  · intro i hi hp hc
    have hi' : ¬i < 12 := by omega
    simp [monYoY, pctChange, fdiv, hi', hp, hc, not_lt.mpr (le_of_lt hc)]

/-- Month fixtures for the YoY cases: thirteen months of NetSales 100;
thirteen months starting at 0; thirteen months starting at 0 and ending
negative; twelve plus one months all zero; two all-zero months; a zero month
followed by a negative month. -/
def c3df13 : List Rec := (List.range 13).map (fun i => mkRec ⟨2022, i + 1, 1⟩ 1 1 100 0 0)

def c3df13posInf : List Rec :=
  mkRec ⟨2022, 1, 1⟩ 0 1 0 0 1 :: (List.range 12).map (fun i => mkRec ⟨2022, i + 2, 1⟩ 1 1 100 0 0)

def c3df13nan : List Rec := (List.range 13).map (fun i => mkRec ⟨2022, i + 1, 1⟩ 0 1 0 0 1)

def c3df13negInf : List Rec :=
  mkRec ⟨2022, 1, 1⟩ 0 1 0 0 1 ::
    ((List.range 11).map (fun i => mkRec ⟨2022, i + 2, 1⟩ 1 1 100 0 0)
      ++ [mkRec ⟨2023, 1, 1⟩ 0 (-2) (-50) 1 0])

def c3df00 : List Rec := [mkRec ⟨2022, 1, 1⟩ 0 1 0 0 1, mkRec ⟨2022, 2, 1⟩ 0 1 0 0 1]

def c3dfNeg : List Rec := [mkRec ⟨2022, 1, 1⟩ 0 1 0 0 1, mkRec ⟨2022, 2, 1⟩ 0 (-2) (-50) 1 0]

/-- Witness for the amended C3, covering every hypothesis case: the §8
`[100, 110, 121]` fixture (MoM `0.10`, YoY unavailable), and the zero-prev
fixtures for the `nan`/`±inf` splits at lag 1 and lag 12. -/
theorem C3_witness :
    monKeys c3df3 = [202201, 202202, 202203]
  ∧ monNetIdx c3df3 0 = 100 ∧ monNetIdx c3df3 1 = 110 ∧ monNetIdx c3df3 2 = 121
  ∧ monMoM c3df3 1 = FVal.val (1 / 10) ∧ monMoM c3df3 2 = FVal.val (1 / 10)
  ∧ monYoY c3df3 0 = FVal.nan ∧ monYoY c3df3 1 = FVal.nan ∧ monYoY c3df3 2 = FVal.nan
  ∧ monMoM c3df00 1 = FVal.nan
  ∧ monMoM c3df 1 = FVal.inf true
  ∧ monMoM c3dfNeg 1 = FVal.inf false
  ∧ monYoY c3df13 12 = FVal.val 0
  ∧ monYoY c3df13nan 12 = FVal.nan
  ∧ monYoY c3df13posInf 12 = FVal.inf true
  ∧ monYoY c3df13negInf 12 = FVal.inf false :=
  ⟨of_decide_eq_true (by with_unfolding_all rfl),
   of_decide_eq_true (by with_unfolding_all rfl),
   of_decide_eq_true (by with_unfolding_all rfl),
   of_decide_eq_true (by with_unfolding_all rfl),
   ((C3_temporal_mom_yoy c3df3).2.2.2.1 1 (by omega)
       (of_decide_eq_true (by with_unfolding_all rfl))).trans
     (of_decide_eq_true (by with_unfolding_all rfl)),
   ((C3_temporal_mom_yoy c3df3).2.2.2.1 2 (by omega)
       (of_decide_eq_true (by with_unfolding_all rfl))).trans
     (of_decide_eq_true (by with_unfolding_all rfl)),
   (C3_temporal_mom_yoy c3df3).2.2.2.2.2.2.2.1 0 (by omega),
   (C3_temporal_mom_yoy c3df3).2.2.2.2.2.2.2.1 1 (by omega),
   (C3_temporal_mom_yoy c3df3).2.2.2.2.2.2.2.1 2 (by omega),
   (C3_temporal_mom_yoy c3df00).2.2.2.2.1 1 (by omega)
     (of_decide_eq_true (by with_unfolding_all rfl))
     (of_decide_eq_true (by with_unfolding_all rfl)),
   (C3_temporal_mom_yoy c3df).2.2.2.2.2.1 1 (by omega)
     (of_decide_eq_true (by with_unfolding_all rfl))
     (of_decide_eq_true (by with_unfolding_all rfl)),
   (C3_temporal_mom_yoy c3dfNeg).2.2.2.2.2.2.1 1 (by omega)
     (of_decide_eq_true (by with_unfolding_all rfl))
     (of_decide_eq_true (by with_unfolding_all rfl)),
   ((C3_temporal_mom_yoy c3df13).2.2.2.2.2.2.2.2.1 12 (by omega)
       (of_decide_eq_true (by with_unfolding_all rfl))).trans
     (of_decide_eq_true (by with_unfolding_all rfl)),
   (C3_temporal_mom_yoy c3df13nan).2.2.2.2.2.2.2.2.2.1 12 (by omega)
     (of_decide_eq_true (by with_unfolding_all rfl))
     (of_decide_eq_true (by with_unfolding_all rfl)),
   (C3_temporal_mom_yoy c3df13posInf).2.2.2.2.2.2.2.2.2.2.1 12 (by omega)
     (of_decide_eq_true (by with_unfolding_all rfl))
     (of_decide_eq_true (by with_unfolding_all rfl)),
   (C3_temporal_mom_yoy c3df13negInf).2.2.2.2.2.2.2.2.2.2.2 12 (by omega)
     (of_decide_eq_true (by with_unfolding_all rfl))
     (of_decide_eq_true (by with_unfolding_all rfl))⟩

theorem mergedVal_zero_of_empty {K : Type} [DecidableEq K] (df : List Rec)
    (key : Rec → K) (pred : Rec → Bool) (f : Rec → ℚ) (k : K)
    (h : df.filter (fun r => pred r && decide (key r = k)) = []) :
    mergedVal df key pred f k = 0 := by
  rw [mergedVal_eq_sum, h]
  rfl

/-- C2 counterexample: the output of `reps_summaries` has no `PaidSales`
column and no ratio column on either side — the two representative groupings
do not carry the columns the claim asserts — and the `price_quantity_bins`
table has no `Returns` column (it aggregates the paid sub-frame directly,
with no secondary grouping). -/
theorem C2_counterexample :
    ¬("PaidSales" ∈ reps_customer_columns)
  ∧ ¬("ReturnRate" ∈ reps_customer_columns)
  ∧ ¬("FreeRate" ∈ reps_customer_columns)
  ∧ ¬("AvgPrice" ∈ reps_customer_columns)
  ∧ ¬("AvgPricePaid" ∈ reps_customer_columns)
  ∧ ¬("PaidSales" ∈ reps_company_columns)
  ∧ ¬("ReturnRate" ∈ reps_company_columns)
  ∧ ¬("Returns" ∈ price_quantity_bins_columns) := by
  refine ⟨?_, ?_, ?_, ?_, ?_, ?_, ?_, ?_⟩ <;> decide

/-- C2 (amended): wherever a pipeline computes a secondary filtered grouping
(`PaidSales`, `Returns`, `PaidQty`) it merges it back by key with missing
groups set to zero — per observed group the merged value equals the sum over
that group's rows passing the filter, hence `0` (present, not absent) when no
row passes; this holds for the temporal, customer-group, store, product and
geography pipelines, but the two representative groupings compute only
`Returns` this way and carry no `PaidSales` and no ratio columns, and the
price-quantity-bin pipeline aggregates the paid sub-frame directly with no
`Returns` column at all. -/
theorem C2_secondary_groupings_zero_fill (df : List Rec) :
    (∀ k ∈ monKeys df,
        monPaidSales df k =
          sumBy (df.filter (fun r => paidPred r && decide (ym r = k))) (·.total_amount)
      ∧ monReturns df k =
          sumBy (df.filter (fun r => retPred r && decide (ym r = k))) absAmount
      ∧ (df.filter (fun r => paidPred r && decide (ym r = k)) = [] → monPaidSales df k = 0)
      ∧ (df.filter (fun r => retPred r && decide (ym r = k)) = [] → monReturns df k = 0))
  ∧ (∀ k ∈ groupKeys df cgKey,
        keyPaidSales df cgKey k =
          sumBy (df.filter (fun r => paidPred r && decide (cgKey r = k))) (·.total_amount)
      ∧ keyReturns df cgKey k =
          sumBy (df.filter (fun r => retPred r && decide (cgKey r = k))) absAmount
      ∧ (df.filter (fun r => paidPred r && decide (cgKey r = k)) = [] → keyPaidSales df cgKey k = 0)
      ∧ (df.filter (fun r => retPred r && decide (cgKey r = k)) = [] → keyReturns df cgKey k = 0))
  ∧ (∀ k ∈ groupKeys df stKey,
        keyPaidSales df stKey k =
          sumBy (df.filter (fun r => paidPred r && decide (stKey r = k))) (·.total_amount)
      ∧ keyReturns df stKey k =
          sumBy (df.filter (fun r => retPred r && decide (stKey r = k))) absAmount
      ∧ (df.filter (fun r => paidPred r && decide (stKey r = k)) = [] → keyPaidSales df stKey k = 0))
  ∧ (∀ k ∈ groupKeys df prodKey,
        keyPaidSales df prodKey k =
          sumBy (df.filter (fun r => paidPred r && decide (prodKey r = k))) (·.total_amount)
      ∧ keyReturns df prodKey k =
          sumBy (df.filter (fun r => retPred r && decide (prodKey r = k))) absAmount
      ∧ keyPaidQty df prodKey k =
          sumBy (df.filter (fun r => paidPred r && decide (prodKey r = k))) (·.quantity)
      ∧ (df.filter (fun r => paidPred r && decide (prodKey r = k)) = [] →
          keyPaidSales df prodKey k = 0 ∧ keyPaidQty df prodKey k = 0))
  ∧ (∀ k ∈ groupKeys df prefKey,
        keyPaidSales df prefKey k =
          sumBy (df.filter (fun r => paidPred r && decide (prefKey r = k))) (·.total_amount)
      ∧ keyReturns df prefKey k =
          sumBy (df.filter (fun r => retPred r && decide (prefKey r = k))) absAmount
      ∧ (df.filter (fun r => retPred r && decide (prefKey r = k)) = [] → keyReturns df prefKey k = 0))
  ∧ (∀ k ∈ groupKeys df custRepKey,
        keyReturns df custRepKey k =
          sumBy (df.filter (fun r => retPred r && decide (custRepKey r = k))) absAmount
      ∧ (df.filter (fun r => retPred r && decide (custRepKey r = k)) = [] →
          keyReturns df custRepKey k = 0))
  ∧ (∀ k ∈ groupKeys df compRepKey,
        keyReturns df compRepKey k =
          sumBy (df.filter (fun r => retPred r && decide (compRepKey r = k))) absAmount
      ∧ (df.filter (fun r => retPred r && decide (compRepKey r = k)) = [] →
          keyReturns df compRepKey k = 0))
  ∧ ¬("PaidSales" ∈ reps_customer_columns)
  ∧ ¬("ReturnRate" ∈ reps_customer_columns)
  ∧ ¬("PaidSales" ∈ reps_company_columns)
  ∧ ¬("ReturnRate" ∈ reps_company_columns)
  ∧ ¬("Returns" ∈ price_quantity_bins_columns) := by
  refine ⟨?_, ?_, ?_, ?_, ?_, ?_, ?_, by decide, by decide, by decide, by decide, by decide⟩
  · intro k _
    exact ⟨mergedVal_eq_sum df ym paidPred (·.total_amount) k,
      mergedVal_eq_sum df ym retPred absAmount k,
      fun h => mergedVal_zero_of_empty df ym paidPred (·.total_amount) k h,
      fun h => mergedVal_zero_of_empty df ym retPred absAmount k h⟩
  · intro k _
    exact ⟨mergedVal_eq_sum df cgKey paidPred (·.total_amount) k,
      mergedVal_eq_sum df cgKey retPred absAmount k,
      fun h => mergedVal_zero_of_empty df cgKey paidPred (·.total_amount) k h,
      fun h => mergedVal_zero_of_empty df cgKey retPred absAmount k h⟩
  · intro k _
    exact ⟨mergedVal_eq_sum df stKey paidPred (·.total_amount) k,
      mergedVal_eq_sum df stKey retPred absAmount k,
      fun h => mergedVal_zero_of_empty df stKey paidPred (·.total_amount) k h⟩
  · intro k _
    exact ⟨mergedVal_eq_sum df prodKey paidPred (·.total_amount) k,
      mergedVal_eq_sum df prodKey retPred absAmount k,
      mergedVal_eq_sum df prodKey paidPred (·.quantity) k,
      fun h => ⟨mergedVal_zero_of_empty df prodKey paidPred (·.total_amount) k h,
        mergedVal_zero_of_empty df prodKey paidPred (·.quantity) k h⟩⟩
  · intro k _
    exact ⟨mergedVal_eq_sum df prefKey paidPred (·.total_amount) k,
      mergedVal_eq_sum df prefKey retPred absAmount k,
      fun h => mergedVal_zero_of_empty df prefKey retPred absAmount k h⟩
  · intro k _
    exact ⟨mergedVal_eq_sum df custRepKey retPred absAmount k,
      fun h => mergedVal_zero_of_empty df custRepKey retPred absAmount k h⟩
  · intro k _
    exact ⟨mergedVal_eq_sum df compRepKey retPred absAmount k,
      fun h => mergedVal_zero_of_empty df compRepKey retPred absAmount k h⟩

/-- Witness for the amended C2: a one-record collection whose only line is
free of charge — every observed group has no paid and no returned rows, and
every merged secondary value is `0`, present rather than absent. -/
theorem C2_witness :
    ym freeRec ∈ monKeys [freeRec]
  ∧ monPaidSales [freeRec] (ym freeRec) = 0
  ∧ monReturns [freeRec] (ym freeRec) = 0
  ∧ keyPaidSales [freeRec] cgKey (cgKey freeRec) = 0
  ∧ keyReturns [freeRec] cgKey (cgKey freeRec) = 0
  ∧ keyPaidSales [freeRec] stKey (stKey freeRec) = 0
  ∧ keyPaidSales [freeRec] prodKey (prodKey freeRec) = 0
  ∧ keyPaidQty [freeRec] prodKey (prodKey freeRec) = 0
  ∧ keyReturns [freeRec] prefKey (prefKey freeRec) = 0
  ∧ keyReturns [freeRec] custRepKey (custRepKey freeRec) = 0
  ∧ keyReturns [freeRec] compRepKey (compRepKey freeRec) = 0 :=
  ⟨by decide,
   ((C2_secondary_groupings_zero_fill [freeRec]).1 (ym freeRec) (by decide)).2.2.1 (by decide),
   ((C2_secondary_groupings_zero_fill [freeRec]).1 (ym freeRec) (by decide)).2.2.2 (by decide),
   ((C2_secondary_groupings_zero_fill [freeRec]).2.1 (cgKey freeRec) (by decide)).2.2.1 (by decide),
   ((C2_secondary_groupings_zero_fill [freeRec]).2.1 (cgKey freeRec) (by decide)).2.2.2 (by decide),
   ((C2_secondary_groupings_zero_fill [freeRec]).2.2.1 (stKey freeRec) (by decide)).2.2 (by decide),
   (((C2_secondary_groupings_zero_fill [freeRec]).2.2.2.1 (prodKey freeRec) (by decide)).2.2.2 (by decide)).1,
   (((C2_secondary_groupings_zero_fill [freeRec]).2.2.2.1 (prodKey freeRec) (by decide)).2.2.2 (by decide)).2,
   ((C2_secondary_groupings_zero_fill [freeRec]).2.2.2.2.1 (prefKey freeRec) (by decide)).2.2 (by decide),
   ((C2_secondary_groupings_zero_fill [freeRec]).2.2.2.2.2.1 (custRepKey freeRec) (by decide)).2 (by decide),
   ((C2_secondary_groupings_zero_fill [freeRec]).2.2.2.2.2.2.1 (compRepKey freeRec) (by decide)).2 (by decide)⟩

theorem rqcS1_length (s : Store) (d : Nat) :
    (rqcS1 s d).frames.length = s.frames.length + 1 := by
  simp [rqcS1, pushF_length]

theorem rqcS2_length (s : Store) (d : Nat) :
    (rqcS2 s d).frames.length = s.frames.length + 1 := by
  simp [rqcS2, writeF_length, rqcS1_length]

theorem rqcS3_length (s : Store) (d : Nat) :
    (rqcS3 s d).frames.length = s.frames.length + 2 := by
  simp [rqcS3, pushF_length, rqcS2_length]

theorem rqcS4_length (s : Store) (d : Nat) :
    (rqcS4 s d).frames.length = s.frames.length + 2 := by
  simp [rqcS4, writeF_length, rqcS3_length]

theorem rqcS5_length (s : Store) (d : Nat) (tol : ℚ) :
    (rqcS5 s d tol).frames.length = s.frames.length + 3 := by
  simp [rqcS5, pushF_length, rqcS4_length]

theorem rqcS6_length (s : Store) (d : Nat) (tol : ℚ) :
    (rqcS6 s d tol).frames.length = s.frames.length + 3 := by
  simp [rqcS6, writeF_length, rqcS5_length]

/-- No stage of `run_quality_checks_st` touches any pre-existing frame. -/
theorem readF_rqcS7_lt (s : Store) (d : Nat) (tol : ℚ) {ref : Nat}
    (h : ref < s.frames.length) : readF (rqcS7 s d tol) ref = readF s ref := by
  unfold rqcS7
  rw [readF_writeF_ne _ _ _ (by omega)]
  unfold rqcS6
  rw [readF_writeF_ne _ _ _ (by omega)]
  unfold rqcS5
  rw [readF_pushF_lt _ _ (by rw [rqcS4_length]; omega)]
  unfold rqcS4
  rw [readF_writeF_ne _ _ _ (by omega)]
  unfold rqcS3
  rw [readF_pushF_lt _ _ (by rw [rqcS2_length]; omega)]
  unfold rqcS2
  rw [readF_writeF_ne _ _ _ (by omega)]
  unfold rqcS1
  rw [readF_pushF_lt _ _ h]

theorem readF_rqcS2_self (s : Store) (d : Nat) :
    readF (rqcS2 s d) s.frames.length =
      setIssue (rqcFree (readF s d)) "FREE_NONZERO_AMOUNT" := by
  unfold rqcS2
  rw [readF_writeF_self _ _ _ (by rw [rqcS1_length]; omega)]
  unfold rqcS1
  rw [readF_pushF_self]

theorem readF_rqcS7_free (s : Store) (d : Nat) (tol : ℚ) :
    readF (rqcS7 s d tol) s.frames.length =
      setIssue (rqcFree (readF s d)) "FREE_NONZERO_AMOUNT" := by
  unfold rqcS7
  rw [readF_writeF_ne _ _ _ (by omega)]
  unfold rqcS6
  rw [readF_writeF_ne _ _ _ (by omega)]
  unfold rqcS5
  rw [readF_pushF_lt _ _ (by rw [rqcS4_length]; omega)]
  unfold rqcS4
  rw [readF_writeF_ne _ _ _ (by omega)]
  unfold rqcS3
  rw [readF_pushF_lt _ _ (by rw [rqcS2_length]; omega)]
  exact readF_rqcS2_self s d

theorem readF_rqcS4_self (s : Store) (d : Nat) :
    readF (rqcS4 s d) (s.frames.length + 1) =
      setIssue (rqcRet (readF s d)) "RETURN_SIGN_MISMATCH" := by
  unfold rqcS4
  rw [readF_writeF_self _ _ _ (by rw [rqcS3_length]; omega)]
  unfold rqcS3
  rw [show s.frames.length + 1 = (rqcS2 s d).frames.length from (rqcS2_length s d).symm,
    readF_pushF_self]

theorem readF_rqcS7_ret (s : Store) (d : Nat) (tol : ℚ) :
    readF (rqcS7 s d tol) (s.frames.length + 1) =
      setIssue (rqcRet (readF s d)) "RETURN_SIGN_MISMATCH" := by
  unfold rqcS7
  rw [readF_writeF_ne _ _ _ (by omega)]
  unfold rqcS6
  rw [readF_writeF_ne _ _ _ (by omega)]
  unfold rqcS5
  rw [readF_pushF_lt _ _ (by rw [rqcS4_length]; omega)]
  exact readF_rqcS4_self s d

theorem readF_rqcS6_self (s : Store) (d : Nat) (tol : ℚ) :
    readF (rqcS6 s d tol) (s.frames.length + 2) =
      setCalcDiff (rqcMis tol (readF s d)) := by
  unfold rqcS6
  rw [readF_writeF_self _ _ _ (by rw [rqcS5_length]; omega)]
  unfold rqcS5
  rw [show s.frames.length + 2 = (rqcS4 s d).frames.length from (rqcS4_length s d).symm,
    readF_pushF_self]

theorem readF_rqcS7_price (s : Store) (d : Nat) (tol : ℚ) :
    readF (rqcS7 s d tol) (s.frames.length + 2) =
      setIssue (setCalcDiff (rqcMis tol (readF s d))) "PRICE_QTY_MISMATCH" := by
  unfold rqcS7
  rw [readF_writeF_self _ _ _ (by rw [rqcS6_length]; omega)]
  rw [readF_rqcS6_self]

/-- The store run returns exactly the pure `run_quality_checks` of the input
frame's value. -/
theorem rqc_st_output (s : Store) (d : Nat) (tol : ℚ) :
    (run_quality_checks_st s d tol).2 = run_quality_checks (readF s d) tol := by
  show readF (rqcS7 s d tol) s.frames.length
      ++ readF (rqcS7 s d tol) (s.frames.length + 1)
      ++ readF (rqcS7 s d tol) (s.frames.length + 2) = _
  rw [readF_rqcS7_free, readF_rqcS7_ret, readF_rqcS7_price]
  unfold run_quality_checks setIssue setCalcDiff rqcFree rqcRet rqcMis
  rw [List.map_map]
  rfl

theorem pqbS1_length (s : Store) (d : Nat) :
    (pqbS1 s d).frames.length = s.frames.length + 1 := by
  simp [pqbS1, pushF_length]

theorem pqbD_val (s : Store) (d : Nat) :
    pqbD s d = (readF s d).filter (fun x => paidPred x.base) := by
  unfold pqbD pqbS1
  rw [readF_pushF_self]

theorem readF_pqbS1_lt (s : Store) (d : Nat) {ref : Nat}
    (h : ref < s.frames.length) : readF (pqbS1 s d) ref = readF s ref := by
  unfold pqbS1
  rw [readF_pushF_lt _ _ h]

theorem readF_pqbS2_lt (s : Store) (d : Nat) {ref : Nat}
    (h : ref < s.frames.length) : readF (pqbS2 s d) ref = readF s ref := by
  unfold pqbS2
  rw [readF_writeF_ne _ _ _ (by omega)]
  exact readF_pqbS1_lt s d h

theorem readF_pqbS2_self (s : Store) (d : Nat) :
    readF (pqbS2 s d) s.frames.length = (pqbD s d).map setQtyBin := by
  unfold pqbS2
  rw [readF_writeF_self _ _ _ (by rw [pqbS1_length]; omega)]

theorem pqb_st_output (s : Store) (d : Nat) :
    (price_quantity_bins_st s d).2 = price_quantity_bins_frame (readF s d) := by
  unfold price_quantity_bins_st price_quantity_bins_frame
  by_cases h : pqbD s d = []
  · rw [if_pos h, if_pos (by rw [← pqbD_val]; exact h)]
  · rw [if_neg h, if_neg (by rw [← pqbD_val]; exact h)]
    show binsTable ((readF (pqbS2 s d) s.frames.length).map (·.base)) = _
    rw [readF_pqbS2_self, pqbD_val, List.map_map]
    congr 1

theorem pqb_st_preserves (s : Store) (d : Nat) {ref : Nat}
    (h : ref < s.frames.length) :
    readF (price_quantity_bins_st s d).1 ref = readF s ref := by
  unfold price_quantity_bins_st
  by_cases hc : pqbD s d = []
  · rw [if_pos hc]
    exact readF_pqbS1_lt s d h
  · rw [if_neg hc]
    exact readF_pqbS2_lt s d h

/-- C9: running the quality checks and the bin pipeline over the frame store
leaves the input frame unchanged (row labels and derived columns are written
only to freshly allocated copies), the produced value is a pure function of
the input frame's value, and re-running on the resulting store reproduces the
same output (the remaining pipelines are embedded as pure functions of the
record list, so their read-only behaviour and rerun-determinism is the
definitional `f df = f df`). -/
theorem C9_pipelines_read_only (s : Store) (dfRef : Nat) (tol : ℚ)
    (h : dfRef < s.frames.length) :
    readF (run_quality_checks_st s dfRef tol).1 dfRef = readF s dfRef
  ∧ (run_quality_checks_st s dfRef tol).2 = run_quality_checks (readF s dfRef) tol
  ∧ (run_quality_checks_st (run_quality_checks_st s dfRef tol).1 dfRef tol).2
      = (run_quality_checks_st s dfRef tol).2
  ∧ readF (price_quantity_bins_st s dfRef).1 dfRef = readF s dfRef
  ∧ (price_quantity_bins_st s dfRef).2 = price_quantity_bins_frame (readF s dfRef)
  ∧ (price_quantity_bins_st (price_quantity_bins_st s dfRef).1 dfRef).2
      = (price_quantity_bins_st s dfRef).2 := by
  have hq1 : readF (run_quality_checks_st s dfRef tol).1 dfRef = readF s dfRef :=
    readF_rqcS7_lt s dfRef tol h
  have hq2 := rqc_st_output s dfRef tol
  have hq3 : (run_quality_checks_st (run_quality_checks_st s dfRef tol).1 dfRef tol).2
      = (run_quality_checks_st s dfRef tol).2 := by
    rw [rqc_st_output, hq1, ← hq2]
  have hp1 : readF (price_quantity_bins_st s dfRef).1 dfRef = readF s dfRef :=
    pqb_st_preserves s dfRef h
  have hp2 := pqb_st_output s dfRef
  have hp3 : (price_quantity_bins_st (price_quantity_bins_st s dfRef).1 dfRef).2
      = (price_quantity_bins_st s dfRef).2 := by
    rw [pqb_st_output, hp1, ← hp2]
  exact ⟨hq1, hq2, hq3, hp1, hp2, hp3⟩

/-- Witness for C9 on a one-frame store holding one free record. -/
theorem C9_witness :
    0 < (Store.mk [[mkRow freeRec]]).frames.length ∧
      readF (run_quality_checks_st (Store.mk [[mkRow freeRec]]) 0 1).1 0 =
        readF (Store.mk [[mkRow freeRec]]) 0 :=
  ⟨by decide, (C9_pipelines_read_only (Store.mk [[mkRow freeRec]]) 0 1 (by decide)).1⟩

end SalesAnalysis
